import Mathlib

/-!
# A verification development for the `giant-squid` MWA ASVO client

Shallow embedding of the data model and the pure decision logic of the
`giant-squid` command-line client (Rust), together with theorems checking
its natural-language specification.  The embedding follows the source files
`src/obsid.rs`, `src/helpers.rs`, `src/asvo/types.rs`, `src/asvo/error.rs`,
`src/asvo/asvo_serde.rs`, `src/asvo/mod.rs` and `src/bin/giant-squid.rs`.

IO, network transport, progress bars and logging are not modelled; the
decision logic that consumes their results is embedded as pure functions,
with network requests and file-system mutations recorded as explicit
effect values.
-/

namespace GiantSquid

/-! ## Obsids and integer token parsing (`src/obsid.rs`, `src/helpers.rs`) -/

/-- The `Obsid(u64)` newtype from `src/obsid.rs`. -/
structure Obsid where
  val : Nat
  deriving DecidableEq, Repr

/-- Embeds `Obsid::validate`: a `u64` is a valid obsid iff `1e9 <= o < 1e10`
(`1e9 as u64 = 1000000000`, `1e10 as u64 = 10000000000`). -/
def Obsid.validate (o : Nat) : Option Obsid :=
  if 1000000000 ≤ o ∧ o < 10000000000 then some ⟨o⟩ else none

/-- Is a character an ASCII decimal digit? -/
def isAsciiDigit (c : Char) : Bool :=
  ('0' ≤ c) && (c ≤ '9')

/-- Value of a list of ASCII digit characters, most significant first. -/
def digitsVal (cs : List Char) : Nat :=
  cs.foldl (fun acc c => acc * 10 + (c.toNat - 48)) 0

/-- Rust's `str::parse::<u64>`: an optional leading `+`, then one or more
ASCII digits, value strictly below `2^64`; anything else fails. -/
def parseU64 (s : String) : Option Nat :=
  let ds : List Char :=
    match s.data with
    | '+' :: rest => rest
    | cs => cs
  if ds = [] then none
  else if ds.all isAsciiDigit then
    if digitsVal ds < 2 ^ 64 then some (digitsVal ds) else none
  else none

/-- The private `ObsidOrJobID` enum from `src/helpers.rs`. -/
inductive ObsidOrJobID where
  | O (o : Obsid)
  | J (j : Nat)
  deriving DecidableEq, Repr

/-- Embeds `parse_jobid_or_obsid` from `src/helpers.rs`: parse the token as a `u64`;
a valid obsid is an obsid, any other `u64` is cast `as AsvoJobID` (`u32`),
i.e. reduced modulo `2^32`; a failed integer parse yields `None`. -/
def parse_jobid_or_obsid (s : String) : Option ObsidOrJobID :=
  match parseU64 s with
  | some i =>
    match Obsid.validate i with
    | some o => some (ObsidOrJobID.O o)
    | none => some (ObsidOrJobID.J (i % 2 ^ 32))
  | none => none

/-! ## Job data model (`src/asvo/types.rs`, states as consumed by
`src/asvo/asvo_serde.rs`) -/

/-- Embeds `AsvoJobType` from `src/asvo/types.rs`. -/
inductive AsvoJobType where
  | Conversion
  | DownloadVisibilities
  | DownloadMetadata
  | DownloadVoltage
  | CancelJob
  deriving DecidableEq, Repr

/-- Embeds `AsvoJobState`: every state constructed by the JSON conversion in
`src/asvo/asvo_serde.rs`. -/
inductive AsvoJobState where
  | Queued
  | WaitCal
  | Staging
  | Staged
  | Downloading
  | Preprocessing
  | Preparing
  | Imaging
  | Delivering
  | Ready
  | Error (msg : String)
  | Expired
  | Cancelled
  deriving DecidableEq, Repr

/-- Embeds `Delivery`: every delivery constructed by the JSON conversion in
`src/asvo/asvo_serde.rs`. -/
inductive Delivery where
  | Acacia
  | Dug
  | Scratch
  deriving DecidableEq, Repr

/-- Embeds `AsvoFilesArray` from `src/asvo/types.rs` (`ftype` embeds the raw
identifier `r#type`). -/
structure AsvoFilesArray where
  ftype : Delivery
  url : Option String
  path : Option String
  size : Nat
  sha1 : Option String
  deriving DecidableEq, Repr

/-- Embeds `AsvoJob` from `src/asvo/types.rs`; job ids are `u32` (`AsvoJobID`). -/
structure AsvoJob where
  obsid : Obsid
  jobid : Nat
  jtype : AsvoJobType
  state : AsvoJobState
  files : Option (List AsvoFilesArray)
  deriving DecidableEq, Repr

/-- The `AsvoError` variants from `src/asvo/error.rs` that the embedded
logic can produce.  String payloads stand for the underlying error's
message; `IOError` embeds the source's `IO` variant (local filesystem
errors). -/
inductive AsvoError where
  | BadStatus (code : Nat) (message : String)
  | BadRequest (code : Nat) (message : String)
  | NoAsvoJob (jobid : Nat)
  | NoObsid (obsid : Obsid)
  | NoJobReadyForObsid (obsid : Obsid)
  | Expired (jobid : Nat)
  | Cancelled (jobid : Nat)
  | TooManyObsids (obsid : Obsid)
  | NotReady (jobid : Nat) (state : AsvoJobState)
  | NoFiles (jobid : Nat)
  | HashMismatch (jobid : Nat) (file : String) (calculated_hash : String)
      (expected_hash : String)
  | UpstreamError (jobid : Nat) (obsid : Obsid) (error : String)
  | BadJson (msg : String)
  | Reqwest (msg : String)
  | IOError (msg : String)
  deriving DecidableEq, Repr

/-- The obsid cited in an error's payload, following the variant fields in
`src/asvo/error.rs` (only `NoObsid`, `NoJobReadyForObsid`, `TooManyObsids`
and `UpstreamError` carry an obsid). -/
def errCitedObsid : AsvoError → Option Obsid
  | AsvoError.NoObsid o => some o
  | AsvoError.NoJobReadyForObsid o => some o
  | AsvoError.TooManyObsids o => some o
  | AsvoError.UpstreamError _ o _ => some o
  | _ => none

/-- The job id cited in an error's payload (`src/asvo/error.rs`). -/
def errCitedJobid : AsvoError → Option Nat
  | AsvoError.NoAsvoJob j => some j
  | AsvoError.Expired j => some j
  | AsvoError.Cancelled j => some j
  | AsvoError.NotReady j _ => some j
  | AsvoError.NoFiles j => some j
  | AsvoError.HashMismatch j _ _ _ => some j
  | AsvoError.UpstreamError j _ _ => some j
  | _ => none

/-! ## Submission responses (`src/asvo/asvo_serde.rs`,
`AsvoSubmitJobResponse`) -/

/-- The `#[serde(untagged)]` enum `AsvoSubmitJobResponse`, in its
declaration order. -/
inductive AsvoSubmitJobResponse where
  | JobIDWithError (error : String) (error_code : Nat) (job_id : Nat)
  | JobID (job_id : Nat)
  | ErrorWithCode (error_code : Nat) (error : String)
  | GenericError (error : String)
  deriving DecidableEq, Repr

/-- A submission-response JSON object, abstracted to the presence and value
of the three fields the four variants can consume.  Extra unknown fields
are ignored by serde's struct-variant decoding and therefore not
represented. -/
structure SubmitPayload where
  error : Option String
  error_code : Option Nat
  job_id : Option Nat
  deriving DecidableEq, Repr

/-- Decoding attempt for the `JobIDWithError` variant: needs all of
`error`, `error_code` and `job_id`. -/
def decodeJobIDWithError (p : SubmitPayload) : Option AsvoSubmitJobResponse :=
  match p.error, p.error_code, p.job_id with
  | some e, some c, some j => some (AsvoSubmitJobResponse.JobIDWithError e c j)
  | _, _, _ => none

/-- Decoding attempt for the `JobID` variant: needs `job_id`. -/
def decodeJobID (p : SubmitPayload) : Option AsvoSubmitJobResponse :=
  match p.job_id with
  | some j => some (AsvoSubmitJobResponse.JobID j)
  | none => none

/-- Decoding attempt for the `ErrorWithCode` variant: needs `error_code`
and `error`. -/
def decodeErrorWithCode (p : SubmitPayload) : Option AsvoSubmitJobResponse :=
  match p.error_code, p.error with
  | some c, some e => some (AsvoSubmitJobResponse.ErrorWithCode c e)
  | _, _ => none

/-- Decoding attempt for the `GenericError` variant: needs `error`. -/
def decodeGenericError (p : SubmitPayload) : Option AsvoSubmitJobResponse :=
  match p.error with
  | some e => some (AsvoSubmitJobResponse.GenericError e)
  | none => none

/-- serde's untagged decoding of `AsvoSubmitJobResponse`: try the variants
in declaration order (most field-specific first, per the comment in
`src/asvo/asvo_serde.rs`) and return the first that matches. -/
def interpretSubmitResponse (p : SubmitPayload) : Option AsvoSubmitJobResponse :=
  (decodeJobIDWithError p).orElse fun _ =>
    (decodeJobID p).orElse fun _ =>
      (decodeErrorWithCode p).orElse fun _ =>
        decodeGenericError p

/-- Shape 1 of the submission response: `{error, error_code, job_id}` all
present. -/
def satisfiesShape1 (p : SubmitPayload) : Bool :=
  p.error.isSome && p.error_code.isSome && p.job_id.isSome

/-- Shape 2 of the submission response: `job_id` present. -/
def satisfiesShape2 (p : SubmitPayload) : Bool :=
  p.job_id.isSome

/-! ## Job-listing decoding (`src/asvo/asvo_serde.rs`) -/

/-- A JSON scalar, as far as the typed serde fields under scrutiny are
concerned: a number or a string. -/
inductive JVal where
  | jnum (n : Int)
  | jstr (s : String)
  deriving DecidableEq, Repr

/-- Embeds `DummyProduct` as serde decodes it (its `type` field is a JSON
string). -/
structure RawProduct where
  ptype : String
  url : Option String
  path : Option String
  size : Nat
  sha1 : Option String
  deriving DecidableEq, Repr

/-- A raw `row` object of the job listing, with the two version-sensitive
fields (`job_type`, `job_state`) kept as raw JSON scalars so that their
serde-imposed types are part of the model. -/
structure RawRow where
  job_type : JVal
  id : Nat
  job_state : JVal
  obs_id : String
  error_text : Option String
  product : Option (List (String × List RawProduct))
  deriving DecidableEq, Repr

/-- Embeds `DummyRow` from `src/asvo/asvo_serde.rs` after serde decoding:
`job_type: u8`, `job_state: String`. -/
structure DummyRow where
  job_type : Nat
  id : Nat
  job_state : String
  obs_id : String
  error_text : Option String
  product : Option (List (String × List RawProduct))
  deriving DecidableEq, Repr

/-- serde field decoding for one `DummyRow`: `job_type` must be a JSON
number in `u8` range and `job_state` must be a JSON string; otherwise the
record fails to deserialise. -/
def deserRow (r : RawRow) : Option DummyRow :=
  match r.job_type, r.job_state with
  | JVal.jnum n, JVal.jstr s =>
    if 0 ≤ n ∧ n ≤ 255 then
      some ⟨n.toNat, r.id, s, r.obs_id, r.error_text, r.product⟩
    else none
  | _, _ => none

/-- serde decoding of the whole `Vec<DummyJob>`: every row must
deserialise, otherwise the whole decode fails. -/
def deserRows : List RawRow → Option (List DummyRow)
  | [] => some []
  | r :: rest =>
    match deserRow r, deserRows rest with
    | some d, some ds => some (d :: ds)
    | _, _ => none

/-- The result of `DummyJob::convert_to_real_job`, which can `panic!`. -/
inductive ConvResult where
  | ok (job : AsvoJob)
  | panicked (msg : String)
  deriving DecidableEq, Repr

/-- The `job_type` match in `convert_to_real_job`: codes 0-4 are known,
anything else panics. -/
def jtypeOfCode (n : Nat) : Option AsvoJobType :=
  match n with
  | 0 => some AsvoJobType.Conversion
  | 1 => some AsvoJobType.DownloadVisibilities
  | 2 => some AsvoJobType.DownloadMetadata
  | 3 => some AsvoJobType.DownloadVoltage
  | 4 => some AsvoJobType.CancelJob
  | _ => none

/-- The `job_state` match in `convert_to_real_job`: the 13 known state
strings; `"error"` additionally unwraps `error_text` (panicking when it is
absent, modelled as `none` here); an unknown string panics. -/
def stateOfString (s : String) (error_text : Option String) :
    Option AsvoJobState :=
  match s with
  | "queued" => some AsvoJobState.Queued
  | "waitcal" => some AsvoJobState.WaitCal
  | "staging" => some AsvoJobState.Staging
  | "staged" => some AsvoJobState.Staged
  | "downloading" => some AsvoJobState.Downloading
  | "preprocessing" => some AsvoJobState.Preprocessing
  | "preparing" => some AsvoJobState.Preparing
  | "imaging" => some AsvoJobState.Imaging
  | "delivering" => some AsvoJobState.Delivering
  | "completed" => some AsvoJobState.Ready
  | "error" => error_text.map AsvoJobState.Error
  | "expired" => some AsvoJobState.Expired
  | "cancelled" => some AsvoJobState.Cancelled
  | _ => none

/-- The delivery-type match on a product's `type` field: `none` encodes the
`panic!("Unsupported delivery type found: ...")` arm. -/
def deliveryOfString (s : String) : Option Delivery :=
  match s with
  | "acacia" => some Delivery.Acacia
  | "dug" => some Delivery.Dug
  | "scratch" => some Delivery.Scratch
  | _ => none

/-- Convert the product list, failing (= panicking) on any unsupported
delivery type. -/
def convertFiles : List RawProduct → Option (List AsvoFilesArray)
  | [] => some []
  | p :: rest =>
    match deliveryOfString p.ptype, convertFiles rest with
    | some d, some tail => some (⟨d, p.url, p.path, p.size, p.sha1⟩ :: tail)
    | _, _ => none

/-- Association-list lookup standing for the `HashMap` index `hm["files"]`
(whose miss is a panic in Rust). -/
def lookupKey (l : List (String × List RawProduct)) (k : String) :
    Option (List RawProduct) :=
  match l with
  | [] => none
  | (k2, v) :: rest => if k2 = k then some v else lookupKey rest k

/-- The tail of `convert_to_real_job`: unwrap and validate `obs_id`, map
the kind code and the state string, build the `AsvoJob`.  Every `unwrap`
or unknown code is a panic. -/
def convertCore (d : DummyRow) (files : Option (List AsvoFilesArray)) :
    ConvResult :=
  match parseU64 d.obs_id with
  | none => ConvResult.panicked "obs_id parse unwrap"
  | some o =>
    match Obsid.validate o with
    | none => ConvResult.panicked "Obsid validate unwrap"
    | some obsid =>
      match jtypeOfCode d.job_type with
      | none => ConvResult.panicked "Unrecognised job_type!"
      | some jt =>
        match stateOfString d.job_state d.error_text with
        | none => ConvResult.panicked "Unrecognised job_state!"
        | some st => ConvResult.ok ⟨obsid, d.id, jt, st, files⟩

/-- Embeds `DummyJob::convert_to_real_job` from `src/asvo/asvo_serde.rs`. -/
def convert_to_real_job (d : DummyRow) : ConvResult :=
  match d.product with
  | none => convertCore d none
  | some hm =>
    match lookupKey hm "files" with
    | none => ConvResult.panicked "product has no files key"
    | some prods =>
      match convertFiles prods with
      | none => ConvResult.panicked "Unsupported delivery type found"
      | some fs => convertCore d (some fs)

/-- Overall outcome of the catalog decode: a returned decode error
(`AsvoError::BadJson` handed back to the caller of `get_jobs`), a panic
(process abort inside `convert_to_real_job`), or the job list. -/
inductive ParseOutcome where
  | ok (jobs : List AsvoJob)
  | decodeErr
  | panicked (msg : String)
  deriving DecidableEq, Repr

/-- Convert every deserialised row; the first panic aborts. -/
def convertAll : List DummyRow → ParseOutcome
  | [] => ParseOutcome.ok []
  | d :: rest =>
    match convert_to_real_job d with
    | ConvResult.panicked m => ParseOutcome.panicked m
    | ConvResult.ok j =>
      match convertAll rest with
      | ParseOutcome.ok js => ParseOutcome.ok (j :: js)
      | other => other

/-- Embeds `parse_asvo_json` from `src/asvo/asvo_serde.rs`: serde-decode all rows
(failure is a returned `serde_json` error, which `get_jobs` wraps as
`AsvoError::BadJson`), then convert each row (which may panic). -/
def parse_asvo_json (rows : List RawRow) : ParseOutcome :=
  match deserRows rows with
  | none => ParseOutcome.decodeErr
  | some ds => convertAll ds

/-! ## Hash comparison (`src/helpers.rs`) -/

/-- Lower-case an ASCII upper-case letter, leave everything else alone. -/
def asciiLower (c : Char) : Char :=
  if 'A' ≤ c ∧ c ≤ 'Z' then Char.ofNat (c.toNat + 32) else c

/-- Rust's `str::eq_ignore_ascii_case`. -/
def eqIgnoreAsciiCase (a b : String) : Bool :=
  a.data.map asciiLower == b.data.map asciiLower

/-- The comparison core of `check_file_sha1_hash` from `src/helpers.rs`:
the SHA-1 digest computation over the file's bytes is not modelled, so the
computed lower-hex digest `hash` is an input; the function returns `none`
on a (case-insensitive) match and the `HashMismatch` error otherwise. -/
def check_file_sha1_hash (hash : String) (expected_hash : String)
    (job_id : Nat) (filename : String) : Option AsvoError :=
  if eqIgnoreAsciiCase hash expected_hash then none
  else some (AsvoError.HashMismatch job_id filename hash expected_hash)

/-! ## Job selection for obsid downloads (`src/asvo/mod.rs`,
`AsvoClient::download_obsid`) -/

/-- Is a job state `Ready`? -/
def isReady : AsvoJobState → Bool
  | AsvoJobState.Ready => true
  | _ => false

/-- What `download_obsid` decides to do with the catalog. -/
inductive DownloadDecision where
  | proceed (job : AsvoJob)
  | fail (e : AsvoError)
  deriving DecidableEq, Repr

/-- The job-selection logic of `AsvoClient::download_obsid`
(`src/asvo/mod.rs`): keep the jobs of this obsid that are `Ready`; zero
`Ready` matches splits into `NoObsid` (no job for the obsid at all) and
`NoJobReadyForObsid`; exactly one `Ready` match is downloaded; more than
one `Ready` match is `TooManyObsids`. -/
def download_obsid_select (obsid : Obsid) (all_jobs : List AsvoJob) :
    DownloadDecision :=
  let ready := all_jobs.filter fun j => j.obsid == obsid && isReady j.state
  match ready with
  | [] =>
    if (all_jobs.filter fun j => j.obsid == obsid) = [] then
      DownloadDecision.fail (AsvoError.NoObsid obsid)
    else
      DownloadDecision.fail (AsvoError.NoJobReadyForObsid obsid)
  | [j] => DownloadDecision.proceed j
  | _ => DownloadDecision.fail (AsvoError.TooManyObsids obsid)

/-! ## The retry controller around a single-file transfer
(`src/asvo/mod.rs`, `AsvoClient::download`) -/

/-- The error classification in `AsvoClient::download`:
`AsvoError::IO(_)` is permanent, everything else transient. -/
def isPermanentError (e : AsvoError) : Bool :=
  match e with
  | AsvoError.IOError _ => true
  | _ => false

/-- Result of `backoff::retry`: success, a permanent failure, or the last
transient error once the backoff budget is exhausted. -/
inductive RetryResult where
  | success
  | permanentFail (e : AsvoError)
  | exhausted (e : AsvoError)
  deriving DecidableEq, Repr

/-- Embeds `backoff::retry` over a finite sequence of attempt outcomes (the first
attempt, then the outcomes further backoff cycles would produce; the list
running out is the backoff budget running out).  `none` is a successful
attempt, `some e` a failed one. -/
def retryRun (first : Option AsvoError) (rest : List (Option AsvoError)) :
    RetryResult :=
  match first with
  | none => RetryResult.success
  | some e =>
    if isPermanentError e then RetryResult.permanentFail e
    else
      match rest with
      | [] => RetryResult.exhausted e
      | a :: more => retryRun a more

/-- The wrapper in `AsvoClient::download`:
`if let Err(Error::Permanent(err)) = retry(...) { return Err(err); }` —
only a permanent failure propagates; success *and an exhausted transient
failure* both fall through to the completion path, modelled as `none`. -/
def downloadFileOutcome (first : Option AsvoError)
    (rest : List (Option AsvoError)) : Option AsvoError :=
  match retryRun first rest with
  | RetryResult.permanentFail e => some e
  | _ => none

/-! ## The transfer engine (`src/asvo/mod.rs`, `AsvoClient::try_download`) -/

/-- The externally observable effects of one `try_download` call that the
claims are about: HTTP GET requests (with the `Range` header value, when
one is set), file creations/truncations (`File::create`) and file
deletions. -/
inductive Effect where
  | httpGet (range : Option String)
  | fileCreate
  | fileDelete
  deriving DecidableEq, Repr

/-- Result of one `try_download` call. -/
inductive DlResult where
  | ok
  | err (e : AsvoError)
  | panicked (msg : String)
  deriving DecidableEq, Repr

/-- The environment a `try_download` call runs in: its flag arguments, the
state of the destination file, and the SHA-1 digests the code would
compute (the hashing itself is not modelled): `disk_hash` is the digest of
the pre-existing destination file, `net_hash` the digest the tee reader
accumulates over the response body. -/
structure DownloadEnv where
  keep_tar : Bool
  no_resume : Bool
  hash : Bool
  file_exists : Bool
  file_len : Nat
  disk_hash : String
  net_hash : String
  deriving DecidableEq, Repr

/-- The `Range` header value built by `try_download`:
`format!("Range: bytes=\x7b\x7d-\x7b\x7d", file_size_bytes, file_info.size)`
— note the `Range: ` prefix duplicated inside the header *value*, and the
declared size (not size − 1) as the end offset. -/
def rangeHeaderValue (file_size_bytes : Nat) (size : Nat) : String :=
  "Range: bytes=" ++ toString file_size_bytes ++ "-" ++ toString size

/-- Modelled from the spec: the well-formed HTTP `Range` header value
requesting the half-open byte interval `[L, size)`, i.e. bytes `L` through
`size − 1` inclusive, which §"Resume correctness" of the spec says the
engine sends.  (For comparison with `rangeHeaderValue`, which embeds what
the code sends.) -/
def specRangeHeaderValue (L : Nat) (size : Nat) : String :=
  "bytes=" ++ toString L ++ "-" ++ toString (size - 1)

/-- The hash verification at the end of `try_download`: with `hash` set,
compare the accumulated digest with the upstream hash case-insensitively;
a mismatch is `AsvoError::HashMismatch` carrying the job id, the url as
the file, the calculated and the expected hash.  Nothing is deleted. -/
def finalHashCheck (env : DownloadEnv) (job : AsvoJob) (url : String)
    (mwa_asvo_hash : String) : DlResult :=
  if env.hash then
    if eqIgnoreAsciiCase env.net_hash mwa_asvo_hash then DlResult.ok
    else
      DlResult.err
        (AsvoError.HashMismatch job.jobid url env.net_hash mwa_asvo_hash)
  else DlResult.ok

/-- The keep-tar download tail of `try_download`: issue the ranged GET
(the range start is the current `file_size_bytes`), stream the body to the
file, then run the final hash verification. -/
def keepTarDownload (env : DownloadEnv) (f : AsvoFilesArray) (job : AsvoJob)
    (url : String) (mwa_asvo_hash : String) (file_size_bytes : Nat)
    (pre : List Effect) : DlResult × List Effect :=
  (finalHashCheck env job url mwa_asvo_hash,
    pre ++ [Effect.httpGet (some (rangeHeaderValue file_size_bytes f.size))])

/-- Shallow embedding of `AsvoClient::try_download` (`src/asvo/mod.rs`).
Progress-bar updates, logging and the byte-copy loops are omitted; the
branch structure, the network requests with their `Range` header, file
creations and the error results follow the source.  `out_path` is the
destination path used by the pre-download hash check. -/
def try_download (env : DownloadEnv) (f : AsvoFilesArray) (job : AsvoJob)
    (url : String) (out_path : String) : DlResult × List Effect :=
  match f.sha1 with
  | none => (DlResult.panicked "job does not have an Sha1 hash", [])
  | some mwa_asvo_hash =>
    if env.keep_tar then
      if env.file_exists then
        if env.no_resume = true ∧ env.file_len < f.size then
          -- partial file exists but --no-resume: skip the file, Ok
          (DlResult.ok, [])
        else if env.file_len = f.size then
          match check_file_sha1_hash env.disk_hash mwa_asvo_hash job.jobid
              out_path with
          | none =>
            -- complete and hash-verified: skip, no network request
            (DlResult.ok, [])
          | some _ =>
            if env.no_resume then
              -- wrong hash but --no-resume: leave the file as is, Ok
              (DlResult.ok, [])
            else
              -- truncate and redownload; `file_size_bytes` keeps the old
              -- length (the source does not reset it after `File::create`)
              keepTarDownload env f job url mwa_asvo_hash env.file_len
                [Effect.fileCreate]
        else
          keepTarDownload env f job url mwa_asvo_hash env.file_len []
      else
        keepTarDownload env f job url mwa_asvo_hash 0 [Effect.fileCreate]
    else
      -- stream-untar branch: plain GET without a Range header, then the
      -- same final hash verification
      (finalHashCheck env job url mwa_asvo_hash, [Effect.httpGet none])

/-! ## The wait loop (`src/bin/giant-squid.rs`, `wait_loop`) -/

/-- The catalog as the wait loop sees it: the `BTreeMap` built from one
`get_jobs` snapshot, embedded as an association list keyed by job id. -/
def AsvoJobMap : Type := List (Nat × AsvoJob)

/-- Embeds `BTreeMap::get`. -/
def mapGet (m : AsvoJobMap) (j : Nat) : Option AsvoJob :=
  match m with
  | [] => none
  | (k, job) :: rest => if k = j then some job else mapGet rest j

/-- Outcome of one pass of the wait loop's `for` body over all requested
job ids against one catalog snapshot. -/
inductive WaitPass where
  | allReady
  | notReady
  | failed (e : AsvoError)
  deriving DecidableEq, Repr

/-- One pass of `wait_loop`'s inner `for` loop (`src/bin/giant-squid.rs`):
a missing id returns `NoAsvoJob` at once; `Error`, `Expired` and
`Cancelled` return their errors at once; `Ready` is satisfied; any other
state sets the `any_not_ready` flag. -/
def waitPassAux (jobs : AsvoJobMap) : List Nat → Bool → WaitPass
  | [], anyNotReady =>
    if anyNotReady then WaitPass.notReady else WaitPass.allReady
  | j :: rest, anyNotReady =>
    match mapGet jobs j with
    | none => WaitPass.failed (AsvoError.NoAsvoJob j)
    | some job =>
      match job.state with
      | AsvoJobState.Ready => waitPassAux jobs rest anyNotReady
      | AsvoJobState.Error e =>
        WaitPass.failed (AsvoError.UpstreamError j job.obsid e)
      | AsvoJobState.Expired => WaitPass.failed (AsvoError.Expired j)
      | AsvoJobState.Cancelled => WaitPass.failed (AsvoError.Cancelled j)
      | _ => waitPassAux jobs rest true

/-- One pass of the wait loop, with the `any_not_ready` flag initially
clear. -/
def waitPass (jobids : List Nat) (jobs : AsvoJobMap) : WaitPass :=
  waitPassAux jobs jobids false

/-- Overall outcome of `wait_loop`: success (all jobs ready), a returned
error, or still pending when the supplied snapshots run out. -/
inductive WaitOutcome where
  | success
  | failure (e : AsvoError)
  | pending
  deriving DecidableEq, Repr

/-- Embeds `wait_loop` from `src/bin/giant-squid.rs` over a finite list of
catalog snapshots (one `get_jobs` result per iteration): run a pass over
the current snapshot; a failure returns immediately, `allReady` breaks out
with success, otherwise sleep and fetch the next snapshot. -/
def wait_loop (snapshots : List AsvoJobMap) (jobids : List Nat) :
    WaitOutcome :=
  match snapshots with
  | [] => WaitOutcome.pending
  | c :: rest =>
    match waitPass jobids c with
    | WaitPass.allReady => WaitOutcome.success
    | WaitPass.failed e => WaitOutcome.failure e
    | WaitPass.notReady => wait_loop rest jobids

/-- A job state is a definitive (terminal) failure for the wait loop. -/
def isTerminalFailure : AsvoJobState → Bool
  | AsvoJobState.Error _ => true
  | AsvoJobState.Expired => true
  | AsvoJobState.Cancelled => true
  | _ => false

/-! ## Concrete fixtures used by the theorems below -/

/-- Every id in `pre` is present in the catalog in a non-terminal state
(so the wait loop's pass walks past it without returning). -/
def okPrefix (jobs : AsvoJobMap) (pre : List Nat) : Prop :=
  ∀ p ∈ pre, ∃ job, mapGet jobs p = some job ∧
    isTerminalFailure job.state = false

/-- A catalog holding a single `Expired` job with id 7. -/
def cat2 : AsvoJobMap :=
  [(7, ⟨⟨1234567890⟩, 7, AsvoJobType.DownloadMetadata,
    AsvoJobState.Expired, none⟩)]

/-- A `Ready` job with id 1. -/
def jobReady1 : AsvoJob :=
  ⟨⟨1234567890⟩, 1, AsvoJobType.DownloadVisibilities, AsvoJobState.Ready,
    none⟩

/-- A job with id 2 in the `Error` state. -/
def jobErr2 : AsvoJob :=
  ⟨⟨1234567891⟩, 2, AsvoJobType.DownloadVisibilities,
    AsvoJobState.Error "boom", none⟩

/-- A catalog where job 1 is `Ready` and job 2 errored. -/
def cat2w : AsvoJobMap := [(1, jobReady1), (2, jobErr2)]

/-- A cloud-delivered 1000-byte file product with an upstream hash. -/
def f3 : AsvoFilesArray :=
  ⟨Delivery.Acacia, some "http://x/y.tar", none, 1000, some "abc"⟩

/-- A `Ready` job owning `f3`. -/
def job3 : AsvoJob :=
  ⟨⟨1234567890⟩, 42, AsvoJobType.DownloadVisibilities, AsvoJobState.Ready,
    some [f3]⟩

/-- Resume environment: keep-tar, resume allowed, partial file of 100 of
1000 bytes on disk. -/
def env3 : DownloadEnv := ⟨true, false, false, true, 100, "", ""⟩

/-- A 1000-byte file product whose upstream hash is `ab13`. -/
def f4 : AsvoFilesArray :=
  ⟨Delivery.Acacia, some "http://x/y.tar", none, 1000, some "ab13"⟩

/-- Fresh keep-tar download with hashing on; the accumulated digest
`AB12` will not match `f4`'s hash. -/
def env4m : DownloadEnv := ⟨true, false, true, false, 0, "", "AB12"⟩

/-- A 1000-byte file product whose upstream hash is `ab12`. -/
def f4e : AsvoFilesArray :=
  ⟨Delivery.Acacia, some "http://x/y.tar", none, 1000, some "ab12"⟩

/-- Fresh keep-tar download with hashing on; the accumulated digest
`AB12` matches `f4e`'s hash up to ASCII case. -/
def env4e : DownloadEnv := ⟨true, false, true, false, 0, "", "AB12"⟩

/-- Keep-tar environment with a complete on-disk file (length 1000) whose
digest `AbC` matches `f9`'s upstream hash `aBc` case-insensitively. -/
def env9 : DownloadEnv := ⟨true, false, true, true, 1000, "AbC", ""⟩

/-- A 1000-byte file product whose upstream hash is `aBc`. -/
def f9 : AsvoFilesArray :=
  ⟨Delivery.Acacia, some "http://x/y.tar", none, 1000, some "aBc"⟩

/-- The obsid shared by the two jobs of the ambiguity counterexample. -/
def obs6 : Obsid := ⟨1234567890⟩

/-- A `Ready` job for `obs6`. -/
def job6r : AsvoJob :=
  ⟨obs6, 1, AsvoJobType.DownloadVisibilities, AsvoJobState.Ready,
    some [⟨Delivery.Acacia, some "u", none, 10, some "d1"⟩]⟩

/-- A second (queued) job for the same `obs6`. -/
def job6q : AsvoJob :=
  ⟨obs6, 2, AsvoJobType.DownloadVisibilities, AsvoJobState.Queued, none⟩

/-- A valid product row for the listing fixtures. -/
def prod7 : RawProduct := ⟨"acacia", some "u", none, 10, some "deadbeef"⟩

/-- A listing row whose `job_state` string is outside the known set. -/
def row7bogus : RawRow :=
  ⟨JVal.jnum 1, 11, JVal.jstr "bogus", "1234567890", none,
    some [("files", [prod7])]⟩

/-- The `DummyRow` that `row7bogus` deserialises to. -/
def d7bogus : DummyRow :=
  ⟨1, 11, "bogus", "1234567890", none, some [("files", [prod7])]⟩

/-- A listing row whose `job_state` is a JSON number (wrong serde type). -/
def row7badtype : RawRow :=
  ⟨JVal.jnum 1, 12, JVal.jnum 2, "1234567890", none, none⟩

/-- The file product of the job-575929 listing fixture. -/
def prod8 : RawProduct :=
  ⟨"acacia", some "https://ingest.pawsey.org.au/mwa-asvo/1339896408_575929_vis.tar",
    none, 931112960, some "12b0933ff3985c82a7303d8e57fa7157fe88353e"⟩

/-- The job-575929 listing row with its state as the string
`"completed"`. -/
def row8str : RawRow :=
  ⟨JVal.jnum 1, 575929, JVal.jstr "completed", "1339896408", none,
    some [("files", [prod8])]⟩

/-- The job-575929 listing row with its state transmitted as the integer
code 2 instead of a string. -/
def row8int : RawRow :=
  ⟨JVal.jnum 1, 575929, JVal.jnum 2, "1339896408", none,
    some [("files", [prod8])]⟩

/-- The `AsvoJob` the string-state row decodes to. -/
def job8 : AsvoJob :=
  ⟨⟨1339896408⟩, 575929, AsvoJobType.DownloadVisibilities,
    AsvoJobState.Ready,
    some [⟨Delivery.Acacia,
      some "https://ingest.pawsey.org.au/mwa-asvo/1339896408_575929_vis.tar",
      none, 931112960, some "12b0933ff3985c82a7303d8e57fa7157fe88353e"⟩]⟩

/-! ## Theorems -/

/-- C1: parsing a submission-response payload tries the four known shapes
in the fixed declaration order (most field-specific first) and returns the
first match: each of the four shapes alone decodes to its own distinct
outcome variant, and any payload satisfying both shape 1
(error, error_code, job_id) and shape 2 (job_id only) decodes to shape 1's
`JobIDWithError`, never to `JobID`. -/
theorem submit_response_priority_order :
    (∀ e c j, interpretSubmitResponse ⟨some e, some c, some j⟩ =
      some (AsvoSubmitJobResponse.JobIDWithError e c j)) ∧
    (∀ j, interpretSubmitResponse ⟨none, none, some j⟩ =
      some (AsvoSubmitJobResponse.JobID j)) ∧
    (∀ e c, interpretSubmitResponse ⟨some e, some c, none⟩ =
      some (AsvoSubmitJobResponse.ErrorWithCode c e)) ∧
    (∀ e, interpretSubmitResponse ⟨some e, none, none⟩ =
      some (AsvoSubmitJobResponse.GenericError e)) ∧
    (∀ p : SubmitPayload, satisfiesShape1 p = true →
      satisfiesShape2 p = true ∧
      ∃ e c j, p.error = some e ∧ p.error_code = some c ∧
        p.job_id = some j ∧
        interpretSubmitResponse p =
          some (AsvoSubmitJobResponse.JobIDWithError e c j)) := by
  refine ⟨?_, ?_, ?_, ?_, ?_⟩
  · intro e c j
    rfl
  · intro j
    rfl
  · intro e c
    rfl
  · intro e
    rfl
  · rintro ⟨pe, pc, pj⟩ h1
    simp only [satisfiesShape1, Bool.and_eq_true, Option.isSome_iff_exists] at h1
    obtain ⟨⟨⟨e, he⟩, ⟨c, hc⟩⟩, ⟨j, hj⟩⟩ := h1
    subst he hc hj
    exact ⟨rfl, e, c, j, rfl, rfl, rfl, rfl⟩

/-- C1 witness: a concrete payload satisfying both shape 1 and shape 2
resolves to `JobIDWithError`. -/
theorem submit_response_priority_order_witness :
    satisfiesShape2 ⟨some "E", some 2, some 10⟩ = true ∧
    interpretSubmitResponse ⟨some "E", some 2, some 10⟩ =
      some (AsvoSubmitJobResponse.JobIDWithError "E" 2 10) := by
  have h := submit_response_priority_order
  have h5 := h.2.2.2.2 ⟨some "E", some 2, some 10⟩ (by decide)
  exact ⟨h5.1, h.1 "E" 2 10⟩

/-- C3 (code bug): on a keep-tar resume with an existing 100-byte partial
file and a declared size of 1000, the engine issues exactly one GET whose
`Range` header value is the string `"Range: bytes=100-1000"` — the header
name is duplicated inside the value and the end offset is the declared
size itself, not 999 — instead of the well-formed value `"bytes=100-999"`
covering the half-open interval `[100, 1000)` that the spec describes. -/
theorem resume_range_header_bug :
    try_download env3 f3 job3 "http://x/y.tar" "y.tar" =
      (DlResult.ok, [Effect.httpGet (some (rangeHeaderValue 100 1000))]) ∧
    rangeHeaderValue 100 1000 = "Range: bytes=100-1000" ∧
    specRangeHeaderValue 100 1000 = "bytes=100-999" ∧
    rangeHeaderValue 100 1000 ≠ specRangeHeaderValue 100 1000 := by
  refine ⟨by decide, by decide, by decide, by decide⟩

/-- C5 (code bug): the retry controller classifies a local IO error as
permanent and surfaces it immediately without consuming further attempts,
and a non-IO error is transient and consumes one backoff cycle; but when
the backoff budget is exhausted the last transient error is *not*
surfaced: `retry` returns it as an exhausted transient failure and the
wrapper in `AsvoClient::download` only propagates permanent failures, so
the file's final outcome is success (`none`). -/
theorem retry_swallows_exhausted_error :
    isPermanentError (AsvoError.IOError "disk full") = true ∧
    downloadFileOutcome (some (AsvoError.IOError "disk full"))
      [some (AsvoError.Reqwest "later")] =
      some (AsvoError.IOError "disk full") ∧
    isPermanentError (AsvoError.Reqwest "connection reset") = false ∧
    retryRun (some (AsvoError.Reqwest "connection reset")) [none] =
      RetryResult.success ∧
    retryRun (some (AsvoError.Reqwest "connection reset")) [] =
      RetryResult.exhausted (AsvoError.Reqwest "connection reset") ∧
    downloadFileOutcome (some (AsvoError.Reqwest "connection reset")) [] =
      none := by
  refine ⟨rfl, rfl, rfl, rfl, rfl, rfl⟩

/-- C8 counterexample: the job-575929 listing row with its state
transmitted as the integer code 2 does not decode at all — serde requires
`job_state` to be a string — so the catalog fetch returns a decode error
rather than parsing the record to a `Ready` job. -/
theorem state_as_integer_counterexample :
    parse_asvo_json [row8int] = ParseOutcome.decodeErr ∧
    parse_asvo_json [row8int] ≠ ParseOutcome.ok [job8] := by
  exact ⟨by decide, by decide⟩

/-- C8 (amended): `job_type` decodes only from an integer code and
`job_state` only from a string; the listing with one record of obsid
1339896408, job id 575929, state `"completed"` and one 931112960-byte
file with the given hash parses to exactly one `Ready` job with id
575929. -/
theorem listing_decode_amended :
    parse_asvo_json [row8str] = ParseOutcome.ok [job8] ∧
    job8.jobid = 575929 ∧
    job8.state = AsvoJobState.Ready ∧
    job8.obsid = ⟨1339896408⟩ ∧
    (∀ r : RawRow, (∃ n, r.job_state = JVal.jnum n) → deserRow r = none) ∧
    (∀ r : RawRow, (∃ s, r.job_type = JVal.jstr s) → deserRow r = none) := by
  refine ⟨by decide, rfl, rfl, rfl, ?_, ?_⟩
  · rintro r ⟨n, hn⟩
    cases hjt : r.job_type <;> simp [deserRow, hn, hjt]
  · rintro r ⟨s, hs⟩
    simp [deserRow, hs]

/-- C8 witness: the wrong-type clauses applied to the integer-state row. -/
theorem listing_decode_amended_witness :
    deserRow row8int = none := by
  exact listing_decode_amended.2.2.2.2.1 row8int ⟨2, rfl⟩

/-- C10 counterexample: `"18446744073709551616"` (that is `2^64`) is a
purely numeric token, yet `parse_jobid_or_obsid` rejects it — Rust's
`u64` parse fails on overflow — so parsing does not accept every numeric
token however large. -/
theorem numeric_token_rejected_counterexample :
    "18446744073709551616".data.all isAsciiDigit = true ∧
    "18446744073709551616".data ≠ [] ∧
    parse_jobid_or_obsid "18446744073709551616" = none := by
  exact ⟨by decide, by decide, by decide⟩

/-- C10 (amended): every token that parses as a `u64` value `i` outside
the valid obsid range `[10^9, 10^10)` is classified as a job ID of value
`i mod 2^32` (the silent `as u32` truncation), and two such tokens whose
values differ by a multiple of `2^32` yield the same job ID; numeric
tokens are never rejected only as long as their value fits in `u64`. -/
theorem jobid_truncation_amended (s : String) (i : Nat)
    (hp : parseU64 s = some i)
    (hr : ¬(1000000000 ≤ i ∧ i < 10000000000)) :
    parse_jobid_or_obsid s = some (ObsidOrJobID.J (i % 2 ^ 32)) ∧
    ∀ t k, parseU64 t = some (i + k * 2 ^ 32) →
      ¬(1000000000 ≤ i + k * 2 ^ 32 ∧ i + k * 2 ^ 32 < 10000000000) →
      parse_jobid_or_obsid t = some (ObsidOrJobID.J (i % 2 ^ 32)) := by
  constructor
  · simp [parse_jobid_or_obsid, hp, Obsid.validate, hr]
  · intro t k hpt hrt
    norm_num at hrt
    simp only [parse_jobid_or_obsid, hpt, Obsid.validate]
    rw [if_neg (by norm_num; exact hrt)]
    simp [Nat.add_mul_mod_self_right]

/-- C10 witness: `"123"` and `"12884902011"` (= `123 + 3·2^32`) both
classify as job ID `123 mod 2^32`. -/
theorem jobid_truncation_amended_witness :
    parse_jobid_or_obsid "123" = some (ObsidOrJobID.J (123 % 2 ^ 32)) ∧
    parse_jobid_or_obsid "12884902011" =
      some (ObsidOrJobID.J (123 % 2 ^ 32)) := by
  have h := jobid_truncation_amended "123" 123 (by decide) (by decide)
  exact ⟨h.1, h.2 "12884902011" 3 (by decide) (by decide)⟩

/-- C4: whenever a transfer with hash verification enabled actually
downloads (its effect trace contains a GET) and the accumulated digest
differs case-insensitively from the upstream hash, the result is exactly
`HashMismatch` carrying the job id, the file (url), the computed and the
expected hash; when the digests agree case-insensitively the transfer
succeeds with no hash error; and no branch of the transfer ever deletes
the on-disk file. -/
theorem hash_mismatch_error (env : DownloadEnv) (f : AsvoFilesArray)
    (job : AsvoJob) (url : String) (out_path : String) (h : String)
    (hs : f.sha1 = some h) (hh : env.hash = true) :
    ((∃ ro, Effect.httpGet ro ∈ (try_download env f job url out_path).2) →
      (eqIgnoreAsciiCase env.net_hash h = false →
        (try_download env f job url out_path).1 =
          DlResult.err
            (AsvoError.HashMismatch job.jobid url env.net_hash h)) ∧
      (eqIgnoreAsciiCase env.net_hash h = true →
        (try_download env f job url out_path).1 = DlResult.ok)) ∧
    Effect.fileDelete ∉ (try_download env f job url out_path).2 := by
  have hfin1 : eqIgnoreAsciiCase env.net_hash h = false →
      finalHashCheck env job url h =
        DlResult.err (AsvoError.HashMismatch job.jobid url env.net_hash h) := by
    intro hne
    simp [finalHashCheck, hh, hne]
  have hfin2 : eqIgnoreAsciiCase env.net_hash h = true →
      finalHashCheck env job url h = DlResult.ok := by
    intro heq
    simp [finalHashCheck, hh, heq]
  simp only [try_download, hs]
  by_cases hk : env.keep_tar
  · simp only [hk, if_true]
    by_cases hfe : env.file_exists
    · simp only [hfe, if_true]
      by_cases hnr : env.no_resume = true ∧ env.file_len < f.size
      · simp [hnr]
      · simp only [hnr, if_false]
        by_cases hlen : env.file_len = f.size
        · simp only [hlen, if_true]
          cases hck : check_file_sha1_hash env.disk_hash h job.jobid out_path
          · simp
          · by_cases hnr2 : env.no_resume
            · simp [hnr2]
            · simp only [hnr2, keepTarDownload]
              refine ⟨fun _ => ⟨hfin1, hfin2⟩, by simp⟩
        · simp only [hlen, if_false, keepTarDownload]
          refine ⟨fun _ => ⟨hfin1, hfin2⟩, by simp⟩
    · simp only [hfe, if_false, keepTarDownload]
      refine ⟨fun _ => ⟨hfin1, hfin2⟩, by simp⟩
  · simp only [hk, if_false]
    refine ⟨fun _ => ⟨hfin1, hfin2⟩, by simp⟩

/-- C4 witness: a fresh keep-tar download with digest `AB12` against
expected hash `ab13` fails with the fully-populated `HashMismatch`, while
the same digest against expected hash `ab12` succeeds (ASCII-case
insensitivity). -/
theorem hash_mismatch_error_witness :
    (try_download env4m f4 job3 "http://x/y.tar" "y.tar").1 =
      DlResult.err
        (AsvoError.HashMismatch 42 "http://x/y.tar" "AB12" "ab13") ∧
    (try_download env4e f4e job3 "http://x/y.tar" "y.tar").1 =
      DlResult.ok ∧
    Effect.fileDelete ∉ (try_download env4m f4 job3 "http://x/y.tar" "y.tar").2 := by
  have h1 := hash_mismatch_error env4m f4 job3 "http://x/y.tar" "y.tar"
    "ab13" (by decide) (by decide)
  have h2 := hash_mismatch_error env4e f4e job3 "http://x/y.tar" "y.tar"
    "ab12" (by decide) (by decide)
  refine ⟨?_, ?_, h1.2⟩
  · exact (h1.1 ⟨some (rangeHeaderValue 0 1000), by decide⟩).1 (by decide)
  · exact (h2.1 ⟨some (rangeHeaderValue 0 1000), by decide⟩).2 (by decide)

/-- C9: a keep-tar transfer whose destination file already has the
declared length and whose on-disk digest matches the upstream hash
case-insensitively short-circuits as already complete: it returns success
with an empty effect trace — in particular zero network requests — so a
second invocation after a completed, hash-verified download makes no
network call. -/
theorem complete_download_idempotent (env : DownloadEnv)
    (f : AsvoFilesArray) (job : AsvoJob) (url : String) (out_path : String)
    (h : String) (hs : f.sha1 = some h) (hk : env.keep_tar = true)
    (hfe : env.file_exists = true) (hlen : env.file_len = f.size)
    (hmatch : eqIgnoreAsciiCase env.disk_hash h = true) :
    try_download env f job url out_path = (DlResult.ok, []) := by
  have hck : check_file_sha1_hash env.disk_hash h job.jobid out_path = none := by
    simp [check_file_sha1_hash, hmatch]
  have hnr : ¬(env.no_resume = true ∧ env.file_len < f.size) := by
    rintro ⟨-, hlt⟩
    omega
  simp [try_download, hs, hk, hfe, hnr, hlen, hck]

/-- C9 witness: the concrete complete, hash-verified file short-circuits
with no effects. -/
theorem complete_download_idempotent_witness :
    try_download env9 f9 job3 "http://x/y.tar" "y.tar" =
      (DlResult.ok, []) := by
  exact complete_download_idempotent env9 f9 job3 "http://x/y.tar" "y.tar"
    "aBc" (by decide) (by decide) (by decide) (by decide) (by decide)

/-- C6 counterexample: a catalog with two jobs for the same obsid, of
which exactly one is `Ready`, does not fail with the ambiguity error —
`download_obsid` filters to `Ready` jobs first and proceeds to download
the single `Ready` one. -/
theorem obsid_ambiguity_counterexample :
    ([job6r, job6q].filter fun j => j.obsid == obs6).length = 2 ∧
    job6r.state = AsvoJobState.Ready ∧
    job6q.state ≠ AsvoJobState.Ready ∧
    download_obsid_select obs6 [job6r, job6q] =
      DownloadDecision.proceed job6r ∧
    download_obsid_select obs6 [job6r, job6q] ≠
      DownloadDecision.fail (AsvoError.TooManyObsids obs6) := by
  refine ⟨by decide, by decide, by decide, by decide, by decide⟩

/-- C6 (amended): the ambiguity error fires only when more than one
*Ready* job exists for the obsid; zero jobs for the obsid at all is the
`NoObsid` not-found error; jobs existing but none `Ready` is
`NoJobReadyForObsid`; and exactly one `Ready` job is downloaded. -/
theorem obsid_selection_amended (obsid : Obsid) (jobs : List AsvoJob) :
    (jobs.filter (fun j => j.obsid == obsid) = [] →
      download_obsid_select obsid jobs =
        DownloadDecision.fail (AsvoError.NoObsid obsid)) ∧
    (jobs.filter (fun j => j.obsid == obsid) ≠ [] →
      jobs.filter (fun j => j.obsid == obsid && isReady j.state) = [] →
      download_obsid_select obsid jobs =
        DownloadDecision.fail (AsvoError.NoJobReadyForObsid obsid)) ∧
    (∀ j, jobs.filter (fun j2 => j2.obsid == obsid && isReady j2.state) = [j] →
      download_obsid_select obsid jobs = DownloadDecision.proceed j) ∧
    (2 ≤ (jobs.filter (fun j => j.obsid == obsid && isReady j.state)).length →
      download_obsid_select obsid jobs =
        DownloadDecision.fail (AsvoError.TooManyObsids obsid)) := by
  refine ⟨?_, ?_, ?_, ?_⟩
  · intro hall
    have hready : jobs.filter (fun j => j.obsid == obsid && isReady j.state) = [] := by
      rw [List.filter_eq_nil_iff] at hall ⊢
      intro a ha hpa
      exact hall a ha (by simpa using (Bool.and_eq_true _ _).mp hpa |>.1)
    simp [download_obsid_select, hready, hall]
  · intro hne hready
    simp [download_obsid_select, hready, hne]
  · intro j hone
    simp [download_obsid_select, hone]
  · intro hlen
    cases hready : jobs.filter (fun j => j.obsid == obsid && isReady j.state) with
    | nil => rw [hready] at hlen; simp at hlen
    | cons a tail =>
      cases tail with
      | nil => rw [hready] at hlen; simp at hlen
      | cons b tail2 => simp [download_obsid_select, hready]

/-- C6 witness: the amended rules at concrete catalogs — empty catalog
gives the not-found error, and a catalog with one `Ready` and one queued
job for the obsid proceeds with the `Ready` job. -/
theorem obsid_selection_amended_witness :
    download_obsid_select obs6 [] =
      DownloadDecision.fail (AsvoError.NoObsid obs6) ∧
    download_obsid_select obs6 [job6r, job6q] =
      DownloadDecision.proceed job6r := by
  refine ⟨(obsid_selection_amended obs6 []).1 (by decide), ?_⟩
  exact (obsid_selection_amended obs6 [job6r, job6q]).2.2.1 job6r (by decide)

/-- If any row fails serde field decoding, the whole listing decode
fails. -/
lemma deserRows_eq_none (rows : List RawRow) (r : RawRow) (hr : r ∈ rows)
    (hf : deserRow r = none) : deserRows rows = none := by
  induction rows with
  | nil => cases hr
  | cons a rest ih =>
    cases hr with
    | head => simp [deserRows, hf]
    | tail _ hmem =>
      rw [deserRows, ih hmem]
      cases deserRow a <;> rfl

/-- If some deserialised row's conversion panics, converting the whole
list panics (with the first panicking row's message). -/
lemma convertAll_panicked (ds : List DummyRow) (d : DummyRow)
    (hd : d ∈ ds) (m : String)
    (hm : convert_to_real_job d = ConvResult.panicked m) :
    ∃ m2, convertAll ds = ParseOutcome.panicked m2 := by
  induction ds with
  | nil => cases hd
  | cons a rest ih =>
    cases hd with
    | head => exact ⟨m, by simp [convertAll, hm]⟩
    | tail _ hmem =>
      cases hc : convert_to_real_job a with
      | panicked m3 => exact ⟨m3, by simp [convertAll, hc]⟩
      | ok j =>
        obtain ⟨m2, h2⟩ := ih hmem
        exact ⟨m2, by simp [convertAll, hc, h2]⟩

/-- A deserialised row whose kind code or state string is outside the
known set makes `convertCore` panic. -/
lemma convertCore_panicked (d : DummyRow)
    (files : Option (List AsvoFilesArray))
    (h : jtypeOfCode d.job_type = none ∨
      stateOfString d.job_state d.error_text = none) :
    ∃ m, convertCore d files = ConvResult.panicked m := by
  cases hp : parseU64 d.obs_id with
  | none => exact ⟨"obs_id parse unwrap", by simp [convertCore, hp]⟩
  | some o =>
    cases hv : Obsid.validate o with
    | none => exact ⟨"Obsid validate unwrap", by simp [convertCore, hp, hv]⟩
    | some obsid =>
      cases h with
      | inl hjt =>
        exact ⟨"Unrecognised job_type!", by simp [convertCore, hp, hv, hjt]⟩
      | inr hst =>
        cases hjt : jtypeOfCode d.job_type with
        | none =>
          exact ⟨"Unrecognised job_type!", by simp [convertCore, hp, hv, hjt]⟩
        | some jt =>
          exact ⟨"Unrecognised job_state!",
            by simp [convertCore, hp, hv, hjt, hst]⟩

/-- A deserialised row whose kind code or state string is outside the
known set makes `convert_to_real_job` panic. -/
lemma convert_panicked (d : DummyRow)
    (h : jtypeOfCode d.job_type = none ∨
      stateOfString d.job_state d.error_text = none) :
    ∃ m, convert_to_real_job d = ConvResult.panicked m := by
  cases hprod : d.product with
  | none =>
    obtain ⟨m, hm⟩ := convertCore_panicked d none h
    exact ⟨m, by simp [convert_to_real_job, hprod, hm]⟩
  | some hm2 =>
    cases hlk : lookupKey hm2 "files" with
    | none =>
      exact ⟨"product has no files key",
        by simp [convert_to_real_job, hprod, hlk]⟩
    | some prods =>
      cases hcf : convertFiles prods with
      | none =>
        exact ⟨"Unsupported delivery type found",
          by simp [convert_to_real_job, hprod, hlk, hcf]⟩
      | some fs =>
        obtain ⟨m, hm⟩ := convertCore_panicked d (some fs) h
        exact ⟨m, by simp [convert_to_real_job, hprod, hlk, hcf, hm]⟩

/-- C7 counterexample: a listing record whose `job_state` string is
outside the known set does not produce a returned decode error — it
panics inside `convert_to_real_job` (`panic!("Unrecognised job_state! ...")`),
aborting the process. -/
theorem unknown_state_panics_counterexample :
    parse_asvo_json [row7bogus] =
      ParseOutcome.panicked "Unrecognised job_state!" ∧
    parse_asvo_json [row7bogus] ≠ ParseOutcome.decodeErr := by
  exact ⟨by decide, by decide⟩

/-- C7 (amended): a record whose state/kind field has the wrong JSON type
(fails serde's `u8`/`String` field decoding) makes the catalog fetch
return a decode error; but a record that deserialises and whose kind code
or state string is outside the known set causes a panic — a process
abort, not a returned decode error. -/
theorem decode_error_vs_panic_amended (rows : List RawRow) :
    (∀ r ∈ rows, deserRow r = none →
      parse_asvo_json rows = ParseOutcome.decodeErr) ∧
    (∀ ds, deserRows rows = some ds →
      ∀ d ∈ ds, (jtypeOfCode d.job_type = none ∨
          stateOfString d.job_state d.error_text = none) →
        ∃ m, parse_asvo_json rows = ParseOutcome.panicked m) := by
  constructor
  · intro r hr hf
    unfold parse_asvo_json
    rw [deserRows_eq_none rows r hr hf]
  · intro ds hds d hd hbad
    obtain ⟨m, hm⟩ := convert_panicked d hbad
    obtain ⟨m2, h2⟩ := convertAll_panicked ds d hd m hm
    exact ⟨m2, by simp [parse_asvo_json, hds, h2]⟩

/-- C7 witness: a number-typed `job_state` gives the returned decode
error; the well-typed but unknown state string gives a panic outcome. -/
theorem decode_error_vs_panic_witness :
    parse_asvo_json [row7badtype] = ParseOutcome.decodeErr ∧
    ∃ m, parse_asvo_json [row7bogus] = ParseOutcome.panicked m := by
  have h1 := decode_error_vs_panic_amended [row7badtype]
  have h2 := decode_error_vs_panic_amended [row7bogus]
  refine ⟨h1.1 row7badtype (by simp) (by decide), ?_⟩
  exact h2.2 [d7bogus] (by decide) d7bogus (by simp) (Or.inr (by decide))

/-- With the `any_not_ready` flag already set, a pass can never report
all-ready. -/
lemma waitPassAux_true_ne (jobs : AsvoJobMap) :
    ∀ ids, waitPassAux jobs ids true ≠ WaitPass.allReady := by
  intro ids
  induction ids with
  | nil => simp [waitPassAux]
  | cons j rest ih =>
    intro h
    cases hg : mapGet jobs j with
    | none => simp [waitPassAux, hg] at h
    | some job =>
      cases hst : job.state <;> simp [waitPassAux, hg, hst] at h <;>
        exact ih h

/-- If a pass reports all-ready then every requested id is present and
`Ready`. -/
lemma waitPassAux_allReady_imp (jobs : AsvoJobMap) :
    ∀ ids b, waitPassAux jobs ids b = WaitPass.allReady →
      ∀ j ∈ ids, ∃ job, mapGet jobs j = some job ∧
        job.state = AsvoJobState.Ready := by
  intro ids
  induction ids with
  | nil =>
    intro b h j hj
    cases hj
  | cons i rest ih =>
    intro b h j hj
    cases hg : mapGet jobs i with
    | none => simp [waitPassAux, hg] at h
    | some job =>
      cases hst : job.state with
      | Ready =>
        simp only [waitPassAux, hg, hst] at h
        cases hj with
        | head => exact ⟨job, hg, hst⟩
        | tail _ hmem => exact ih b h j hmem
      | Error e => simp [waitPassAux, hg, hst] at h
      | Expired => simp [waitPassAux, hg, hst] at h
      | Cancelled => simp [waitPassAux, hg, hst] at h
      | Queued =>
        simp only [waitPassAux, hg, hst] at h
        exact absurd h (waitPassAux_true_ne jobs rest)
      | WaitCal =>
        simp only [waitPassAux, hg, hst] at h
        exact absurd h (waitPassAux_true_ne jobs rest)
      | Staging =>
        simp only [waitPassAux, hg, hst] at h
        exact absurd h (waitPassAux_true_ne jobs rest)
      | Staged =>
        simp only [waitPassAux, hg, hst] at h
        exact absurd h (waitPassAux_true_ne jobs rest)
      | Downloading =>
        simp only [waitPassAux, hg, hst] at h
        exact absurd h (waitPassAux_true_ne jobs rest)
      | Preprocessing =>
        simp only [waitPassAux, hg, hst] at h
        exact absurd h (waitPassAux_true_ne jobs rest)
      | Preparing =>
        simp only [waitPassAux, hg, hst] at h
        exact absurd h (waitPassAux_true_ne jobs rest)
      | Imaging =>
        simp only [waitPassAux, hg, hst] at h
        exact absurd h (waitPassAux_true_ne jobs rest)
      | Delivering =>
        simp only [waitPassAux, hg, hst] at h
        exact absurd h (waitPassAux_true_ne jobs rest)

/-- If every requested id is present and `Ready`, the pass reports
all-ready. -/
lemma waitPassAux_allReady_of (jobs : AsvoJobMap) :
    ∀ ids, (∀ j ∈ ids, ∃ job, mapGet jobs j = some job ∧
        job.state = AsvoJobState.Ready) →
      waitPassAux jobs ids false = WaitPass.allReady := by
  intro ids
  induction ids with
  | nil => intro _; rfl
  | cons i rest ih =>
    intro h
    obtain ⟨job, hg, hst⟩ := h i (List.mem_cons_self i rest)
    have hrest := ih fun j hj => h j (List.mem_cons_of_mem i hj)
    simp [waitPassAux, hg, hst, hrest]

/-- A pass walks past a prefix of present, non-terminal jobs: the result
on `pre ++ rest` equals the result on `rest` with some flag value. -/
lemma waitPassAux_prefix (jobs : AsvoJobMap) :
    ∀ pre, okPrefix jobs pre → ∀ b rest,
      ∃ b2, waitPassAux jobs (pre ++ rest) b = waitPassAux jobs rest b2 := by
  intro pre
  induction pre with
  | nil =>
    intro _ b rest
    exact ⟨b, rfl⟩
  | cons p ps ih =>
    intro hpre b rest
    obtain ⟨job, hg, hterm⟩ := hpre p (List.mem_cons_self p ps)
    have hps : okPrefix jobs ps := fun q hq =>
      hpre q (List.mem_cons_of_mem p hq)
    cases hst : job.state with
    | Error e => exact absurd hterm (by simp [isTerminalFailure, hst])
    | Expired => exact absurd hterm (by simp [isTerminalFailure, hst])
    | Cancelled => exact absurd hterm (by simp [isTerminalFailure, hst])
    | Ready =>
      obtain ⟨b2, hb2⟩ := ih hps b rest
      exact ⟨b2, by simp [waitPassAux, hg, hst, hb2]⟩
    | Queued =>
      obtain ⟨b2, hb2⟩ := ih hps true rest
      exact ⟨b2, by simp [waitPassAux, hg, hst, hb2]⟩
    | WaitCal =>
      obtain ⟨b2, hb2⟩ := ih hps true rest
      exact ⟨b2, by simp [waitPassAux, hg, hst, hb2]⟩
    | Staging =>
      obtain ⟨b2, hb2⟩ := ih hps true rest
      exact ⟨b2, by simp [waitPassAux, hg, hst, hb2]⟩
    | Staged =>
      obtain ⟨b2, hb2⟩ := ih hps true rest
      exact ⟨b2, by simp [waitPassAux, hg, hst, hb2]⟩
    | Downloading =>
      obtain ⟨b2, hb2⟩ := ih hps true rest
      exact ⟨b2, by simp [waitPassAux, hg, hst, hb2]⟩
    | Preprocessing =>
      obtain ⟨b2, hb2⟩ := ih hps true rest
      exact ⟨b2, by simp [waitPassAux, hg, hst, hb2]⟩
    | Preparing =>
      obtain ⟨b2, hb2⟩ := ih hps true rest
      exact ⟨b2, by simp [waitPassAux, hg, hst, hb2]⟩
    | Imaging =>
      obtain ⟨b2, hb2⟩ := ih hps true rest
      exact ⟨b2, by simp [waitPassAux, hg, hst, hb2]⟩
    | Delivering =>
      obtain ⟨b2, hb2⟩ := ih hps true rest
      exact ⟨b2, by simp [waitPassAux, hg, hst, hb2]⟩

/-- A successful wait loop had a snapshot whose pass reported
all-ready. -/
lemma wait_loop_success_elim (ids : List Nat) :
    ∀ snaps, wait_loop snaps ids = WaitOutcome.success →
      ∃ c ∈ snaps, waitPass ids c = WaitPass.allReady := by
  intro snaps
  induction snaps with
  | nil => intro h; simp [wait_loop] at h
  | cons c rest ih =>
    intro h
    cases hp : waitPass ids c with
    | allReady => exact ⟨c, by simp, hp⟩
    | failed e => simp [wait_loop, hp] at h
    | notReady =>
      simp only [wait_loop, hp] at h
      obtain ⟨c2, hc2, hall⟩ := ih h
      exact ⟨c2, by simp [hc2], hall⟩

/-- C2 counterexample: for a requested job in the `Expired` state the wait
loop fails with `AsvoError::Expired`, which cites only the job id — the
returned error carries no obsid, contradicting the claim that the failure
cites the job id *and its obsid* for all of Error/Expired/Cancelled. -/
theorem wait_terminal_obsid_citation_counterexample :
    waitPass [7] cat2 = WaitPass.failed (AsvoError.Expired 7) ∧
    errCitedJobid (AsvoError.Expired 7) = some 7 ∧
    errCitedObsid (AsvoError.Expired 7) = none := by
  exact ⟨by decide, by decide, by decide⟩

/-- C2 (amended): a pass of the wait loop reports all-ready exactly when
every requested id is present and `Ready`; with the ids before `j` present
and non-terminal, a missing `j` fails immediately with `NoAsvoJob j`, an
errored `j` fails immediately with `UpstreamError` citing the job id, its
obsid and the upstream message, and an `Expired`/`Cancelled` `j` fails
immediately citing the job id (only); a failing pass ends the whole loop
with that error no matter how many further snapshots would follow (no
retry of definitive outcomes, and no masking by other jobs' readiness);
and the loop succeeds only if some snapshot had every requested job
`Ready`. -/
theorem wait_loop_amended (cat : AsvoJobMap) (ids : List Nat) :
    (waitPass ids cat = WaitPass.allReady ↔
      ∀ j ∈ ids, ∃ job, mapGet cat j = some job ∧
        job.state = AsvoJobState.Ready) ∧
    (∀ pre j post, ids = pre ++ j :: post → okPrefix cat pre →
      (mapGet cat j = none →
        waitPass ids cat = WaitPass.failed (AsvoError.NoAsvoJob j)) ∧
      (∀ job, mapGet cat j = some job →
        (∀ e, job.state = AsvoJobState.Error e →
          waitPass ids cat =
            WaitPass.failed (AsvoError.UpstreamError j job.obsid e)) ∧
        (job.state = AsvoJobState.Expired →
          waitPass ids cat = WaitPass.failed (AsvoError.Expired j)) ∧
        (job.state = AsvoJobState.Cancelled →
          waitPass ids cat = WaitPass.failed (AsvoError.Cancelled j)))) ∧
    (∀ e snaps, waitPass ids cat = WaitPass.failed e →
      wait_loop (cat :: snaps) ids = WaitOutcome.failure e) ∧
    (∀ snaps, wait_loop snaps ids = WaitOutcome.success →
      ∃ c ∈ snaps, ∀ j ∈ ids, ∃ job, mapGet c j = some job ∧
        job.state = AsvoJobState.Ready) := by
  refine ⟨⟨fun h => waitPassAux_allReady_imp cat ids false h,
    fun h => waitPassAux_allReady_of cat ids h⟩, ?_, ?_, ?_⟩
  · intro pre j post hids hpre
    subst hids
    obtain ⟨b2, hb2⟩ := waitPassAux_prefix cat pre hpre false (j :: post)
    constructor
    · intro hnone
      rw [waitPass, hb2]
      simp [waitPassAux, hnone]
    · intro job hjob
      refine ⟨?_, ?_, ?_⟩
      · intro e hst
        rw [waitPass, hb2]
        simp [waitPassAux, hjob, hst]
      · intro hst
        rw [waitPass, hb2]
        simp [waitPassAux, hjob, hst]
      · intro hst
        rw [waitPass, hb2]
        simp [waitPassAux, hjob, hst]
  · intro e snaps h
    simp [wait_loop, h]
  · intro snaps h
    obtain ⟨c, hc, hall⟩ := wait_loop_success_elim ids snaps h
    exact ⟨c, hc, waitPassAux_allReady_imp c ids false hall⟩

/-- C2 witness: with job 1 `Ready` and job 2 errored with message
`"boom"`, the wait loop fails with the upstream error attributable to job
2 (citing its id, obsid and message); job 1's readiness does not mask
it, and the failure ends the loop immediately. -/
theorem wait_loop_amended_witness :
    waitPass [1, 2] cat2w =
      WaitPass.failed (AsvoError.UpstreamError 2 ⟨1234567891⟩ "boom") ∧
    wait_loop [cat2w, cat2w] [1, 2] =
      WaitOutcome.failure (AsvoError.UpstreamError 2 ⟨1234567891⟩ "boom") := by
  have h := wait_loop_amended cat2w [1, 2]
  have hpre : okPrefix cat2w [1] := by
    intro p hp
    have hp1 : p = 1 := by simpa using hp
    subst hp1
    exact ⟨jobReady1, by decide, by decide⟩
  have h2 := (h.2.1 [1] 2 [] rfl hpre).2 jobErr2 (by decide)
  have hfail := h2.1 "boom" (by decide)
  have hobsid : jobErr2.obsid = (⟨1234567891⟩ : Obsid) := by decide
  rw [hobsid] at hfail
  exact ⟨hfail, h.2.2.1 _ [cat2w] hfail⟩

end GiantSquid
